import Mathlib

/-!
# Verification of the Game-of-Life animation engine in `src/components/Orbit.tsx`

This file gives a shallow embedding of the `GameOfLife` component (the only
algorithmic part of the repository) and proves or refutes the specification's
claims about it.  JS numbers are modelled by exact rationals `ℚ`; the grid is a
list of rows of cells; the browser event loop driving the animation is modelled
by an explicit step relation on a scheduler state.
-/

namespace GameOfLife

/-- A cell of the Game-of-Life grid
(source: `type Grid = { alive: boolean; opacity: number }[][]`, Orbit.tsx line 620). -/
structure Cell where
  alive : Bool
  opacity : ℚ
deriving DecidableEq, Repr

/-- The grid: a list of rows of cells. -/
abbrev Grid := List (List Cell)

/-- Default cell returned by out-of-range lookups (never reached at in-range
indices of a well-formed grid). -/
def deadCell : Cell := ⟨false, 0⟩

/-- Lookup `grid[i][j]`: the cell in row `i`, column `j`. -/
def cellAt (g : Grid) (i j : Nat) : Cell := (g.getD i []).getD j deadCell

/-- The closure variable `rows` (line 649); for the grids the component builds it
equals the number of rows of the list. -/
def gridRows (g : Grid) : Nat := g.length

/-- The closure variable `cols` (line 648); for the well-formed grids the
component builds it equals the length of every row. -/
def gridCols (g : Grid) : Nat := (g.headD []).length

/-- JS `%` as used in `(x + i + rows) % rows` (lines 680-681): the dividend is
non-negative there, so JS truncated remainder agrees with `Int.emod`. -/
def wrapIdx (a : Int) (m : Nat) : Nat := (a % (m : Int)).toNat

/-- Source `countNeighbors` (lines 674-688): the double loop over
`i, j ∈ {-1, 0, 1}` sums `alive` over the whole toroidally wrapped 3×3 block,
and afterwards the cell itself is subtracted once (line 686). -/
def countNeighbors (g : Grid) (x y : Nat) : Nat :=
  (((([-1, 0, 1] : List Int).flatMap fun i =>
    ([-1, 0, 1] : List Int).map fun j =>
      if (cellAt g (wrapIdx ((x : Int) + i + gridRows g) (gridRows g))
                   (wrapIdx ((y : Int) + j + gridCols g) (gridCols g))).alive
      then 1 else 0).sum : Nat) -
   (if (cellAt g x y).alive then 1 else 0))

/-- Source next-generation computation inside `draw` (lines 735-755):
`grid.map((row, i) => row.map((cell, j) => ...))`, with
`willBeAlive = cell.alive ? neighbors >= 2 && neighbors <= 3 : neighbors === 3`,
opacity carried through unchanged. -/
def step (g : Grid) : Grid :=
  g.mapIdx fun i row => row.mapIdx fun j cell =>
    { alive := if cell.alive
               then decide (2 ≤ countNeighbors g i j) && decide (countNeighbors g i j ≤ 3)
               else countNeighbors g i j == 3
      opacity := cell.opacity }

/-- Source per-cell opacity update inside `draw` (lines 709-716), with
`transitionSpeed = 0.2` (line 650): rise toward `0.5` while alive (guarded by
`opacity < 1`), decay toward `0` while dead. -/
def tickOpacity (c : Cell) : Cell :=
  if c.alive = true ∧ c.opacity < 1 then { c with opacity := min (c.opacity + 1/5) (1/2) }
  else if c.alive = false ∧ 0 < c.opacity then { c with opacity := max (c.opacity - 1/5) 0 }
  else c

/-- The opacity-update sweep of `draw` over the whole grid (lines 706-716). -/
def opacityPass (g : Grid) : Grid := g.map fun row => row.map tickOpacity

/-- The sequence of drawing calls one execution of `draw` emits (lines 718-730):
row-major over the grid after the opacity update, one record `(row, col, opacity)`
per cell whose (post-update) opacity is strictly positive. -/
def drawCalls (g : Grid) : List (Nat × Nat × ℚ) :=
  (opacityPass g).enum.flatMap fun p =>
    p.2.enum.flatMap fun q =>
      if 0 < q.2.opacity then [(p.1, q.1, q.2.opacity)] else []

/-- The full state effect of one `draw` execution on the grid: the in-place
opacity update (lines 706-716) followed by the generation change (lines 735-755). -/
def drawStep (g : Grid) : Grid := step (opacityPass g)

/-- Source initialization of one cell (lines 658-661).  The source calls
`Math.random()` twice per cell - once for `alive`, once (independently) for
`opacity`; the two results are the arguments `r1` and `r2`. -/
def initCell (r1 r2 : ℚ) : Cell :=
  { alive := decide (r1 > 85/100), opacity := if r2 > 85/100 then 1/2 else 0 }

/-- Source grid initialization (lines 653-662): every cell is populated
independently; `rand i j` supplies the pair of `Math.random()` results consumed
by the cell in row `i`, column `j`.  There is no parameter validation in the
source: the function is total in `rows` and `cols`. -/
def initGrid (rand : Nat → Nat → ℚ × ℚ) (rows cols : Nat) : Grid :=
  (List.range rows).map fun i => (List.range cols).map fun j =>
    initCell (rand i j).1 (rand i j).2

/-- Lookup returning `none` out of range, for stating snapshot membership. -/
def cellAt? (g : Grid) (i j : Nat) : Option Cell := (g[i]?).bind fun row => row[j]?

/-- Projection of a grid to its alive flags. -/
def aliveGrid (g : Grid) : List (List Bool) := g.map fun row => row.map Cell.alive

/-- Build a grid from alive flags, all opacities `0`. -/
def boolGrid (bs : List (List Bool)) : Grid := bs.map fun row => row.map fun b => ⟨b, 0⟩

/-- A 5×5 grid holding a horizontal blinker in row 2, columns 1-3. -/
def blinkerH : Grid := boolGrid
  [[false, false, false, false, false],
   [false, false, false, false, false],
   [false, true,  true,  true,  false],
   [false, false, false, false, false],
   [false, false, false, false, false]]

/-- A 5×5 grid holding a vertical blinker in column 2, rows 1-3. -/
def blinkerV : Grid := boolGrid
  [[false, false, false, false, false],
   [false, false, true,  false, false],
   [false, false, true,  false, false],
   [false, false, true,  false, false],
   [false, false, false, false, false]]

/-! ## Generic list helpers -/

theorem getElem?_mapIdx' (l : List α) (f : Nat → α → β) (i : Nat) :
    (l.mapIdx f)[i]? = (l[i]?).map (f i) := by
  rw [List.mapIdx_eq_enum_map, List.getElem?_map]
  simp only [List.getElem?_enum]
  cases l[i]? <;> simp [Function.uncurry]

/-! ## C6: `step` carries opacity through unchanged -/

/-- C6: for every grid and every coordinate, the cell of `step g` carries exactly
the opacity the cell at the same coordinate had in `g`; only `alive` may change
(out-of-range coordinates yield the default cell on both sides). -/
theorem step_preserves_opacity (g : Grid) (i j : Nat) :
    (cellAt (step g) i j).opacity = (cellAt g i j).opacity := by
  unfold cellAt step
  rw [List.getD_eq_getElem?_getD, List.getD_eq_getElem?_getD, getElem?_mapIdx']
  cases hg : g[i]? with
  | none => simp [hg, List.getD_eq_getElem?_getD]
  | some row =>
    simp only [hg, Option.map_some', Option.getD_some]
    rw [List.getD_eq_getElem?_getD, List.getD_eq_getElem?_getD, getElem?_mapIdx']
    cases hr : row[j]? <;> simp [hg, hr, List.getD_eq_getElem?_getD]

/-- Witness for C6 at a concrete grid and coordinate. -/
theorem step_preserves_opacity_witness :
    (cellAt (step blinkerH) 2 2).opacity = (cellAt blinkerH 2 2).opacity :=
  step_preserves_opacity blinkerH 2 2

/-! ## C4: the blinker oscillates with period 2 -/

/-- C4: one `step` turns the horizontal blinker into the vertical one, and a
second `step` restores the original alive flags: `step (step blinker) = blinker`
on the alive projection. -/
theorem blinker_oscillates :
    aliveGrid (step blinkerH) = aliveGrid blinkerV ∧
    aliveGrid (step (step blinkerH)) = aliveGrid blinkerH := by
  decide

/-! ## C1: the generation rule -/

theorem cellAt_step (g : Grid) (i j : Nat) (hi : i < gridRows g)
    (hj : j < (g.getD i []).length) :
    cellAt (step g) i j =
      { alive := if (cellAt g i j).alive
                 then decide (2 ≤ countNeighbors g i j) && decide (countNeighbors g i j ≤ 3)
                 else countNeighbors g i j == 3,
        opacity := (cellAt g i j).opacity } := by
  have hi' : i < g.length := hi
  have hgi : g[i]? = some g[i] := List.getElem?_eq_getElem hi'
  have hrow : g.getD i [] = g[i] := List.getD_eq_getElem g [] hi'
  rw [hrow] at hj
  have hij : g[i][j]? = some (g[i][j]) := List.getElem?_eq_getElem hj
  unfold cellAt step
  simp only [List.getD_eq_getElem?_getD, getElem?_mapIdx', hgi, Option.map_some',
    Option.getD_some, hij]

/-- C1: for every grid and every in-range cell, `step` sets the alive flag to
true exactly when (alive and 2 or 3 live neighbours) or (dead and exactly 3 live
neighbours); the neighbour count on the right-hand side is `countNeighbors g`,
taken from the input grid, never from the partially built output. -/
theorem step_alive_rule (g : Grid) (i j : Nat) (hi : i < gridRows g)
    (hj : j < (g.getD i []).length) :
    ((cellAt (step g) i j).alive = true ↔
      (((cellAt g i j).alive = true ∧
        (countNeighbors g i j = 2 ∨ countNeighbors g i j = 3)) ∨
       ((cellAt g i j).alive = false ∧ countNeighbors g i j = 3))) := by
  rw [cellAt_step g i j hi hj]
  cases ha : (cellAt g i j).alive
  · simp [ha]
  · simp [ha]
    omega

/-- Witness for C1: the centre of the horizontal blinker has 2 live neighbours
and survives. -/
theorem step_alive_rule_witness :
    (cellAt (step blinkerH) 2 2).alive = true :=
  (step_alive_rule blinkerH 2 2 (by decide) (by decide)).mpr (by decide)

/-! ## C2: neighbour counting matches the 8-offset toroidal specification -/

/-- The spec's neighbour offsets: `{-1,0,1} × {-1,0,1}` excluding `(0,0)`. -/
def specNeighborOffsets : List (Int × Int) :=
  [(-1, -1), (-1, 0), (-1, 1), (0, -1), (0, 1), (1, -1), (1, 0), (1, 1)]

/-- The spec's `countLiveNeighbors`, written from the spec's words: sum `alive`
over the 8 toroidally wrapped neighbours, wrapping each index as
`((index + delta + dimension) % dimension)`. -/
def countLiveNeighborsSpec (g : Grid) (row col : Nat) : Nat :=
  (specNeighborOffsets.map fun d =>
    if (cellAt g (wrapIdx ((row : Int) + d.1 + gridRows g) (gridRows g))
                 (wrapIdx ((col : Int) + d.2 + gridCols g) (gridCols g))).alive
    then 1 else 0).sum

theorem wrapIdx_center (x m : Nat) (hx : x < m) :
    wrapIdx ((x : Int) + 0 + m) m = x := by
  unfold wrapIdx
  have h2 : ((x : Int) + 0 + m) = (x : Int) + m * 1 := by ring
  have h1 : ((x : Int) + 0 + m) % m = x := by
    rw [h2, Int.add_mul_emod_self_left]
    exact Int.emod_eq_of_lt (Int.natCast_nonneg x) (by exact_mod_cast hx)
  rw [h1]
  simp

/-- A 4×5 grid with a single live cell at `(0, 0)`. -/
def cornerG : Grid := boolGrid
  [[true,  false, false, false, false],
   [false, false, false, false, false],
   [false, false, false, false, false],
   [false, false, false, false, false]]

/-- C2: at every in-range coordinate, the source's `countNeighbors` (9 wrapped
cells minus the centre) equals the spec's 8-offset toroidal neighbour count; in
particular the live cell at `(0,0)` of a 4×5 grid is counted by the wrapped
corner `(3,4)`, and in a 1×1 grid a live cell's own neighbour count is 8. -/
theorem countNeighbors_spec_all :
    (∀ (g : Grid) (x y : Nat), x < gridRows g → y < gridCols g →
        countNeighbors g x y = countLiveNeighborsSpec g x y) ∧
    countNeighbors cornerG 3 4 = 1 ∧
    countNeighbors [[⟨true, 0⟩]] 0 0 = 8 := by
  refine ⟨?_, by decide, by decide⟩
  intro g x y hx hy
  unfold countNeighbors countLiveNeighborsSpec specNeighborOffsets
  simp only [List.flatMap_cons, List.flatMap_nil, List.map_cons, List.map_nil,
    List.append_nil, List.sum_append, List.sum_cons, List.sum_nil]
  rw [wrapIdx_center x (gridRows g) hx, wrapIdx_center y (gridCols g) hy]
  omega

/-- Witness for C2 at a concrete grid and coordinate. -/
theorem countNeighbors_spec_witness :
    countNeighbors blinkerH 2 2 = countLiveNeighborsSpec blinkerH 2 2 :=
  countNeighbors_spec_all.1 blinkerH 2 2 (by decide) (by decide)

/-! ## C5: monotone opacity convergence -/

/-- Closed form of the opacity of a cell held alive from opacity `0`. -/
def riseVal : Nat → ℚ
  | 0 => 0
  | 1 => 1/5
  | 2 => 2/5
  | _ => 1/2

/-- Closed form of the opacity of a cell held dead from opacity `1/2`. -/
def fallVal : Nat → ℚ
  | 0 => 1/2
  | 1 => 3/10
  | 2 => 1/10
  | _ => 0

theorem tickOpacity_rise (n : Nat) :
    tickOpacity ⟨true, riseVal n⟩ = ⟨true, riseVal (n + 1)⟩ := by
  match n with
  | 0 => unfold tickOpacity riseVal; norm_num
  | 1 => unfold tickOpacity riseVal; norm_num
  | 2 => unfold tickOpacity riseVal; norm_num
  | m + 3 =>
    have h1 : riseVal (m + 3) = 1/2 := rfl
    have h2 : riseVal (m + 3 + 1) = 1/2 := rfl
    rw [h1, h2]; unfold tickOpacity; norm_num

theorem tickOpacity_fall (n : Nat) :
    tickOpacity ⟨false, fallVal n⟩ = ⟨false, fallVal (n + 1)⟩ := by
  match n with
  | 0 => unfold tickOpacity fallVal; norm_num
  | 1 => unfold tickOpacity fallVal; norm_num
  | 2 => unfold tickOpacity fallVal; norm_num
  | m + 3 =>
    have h1 : fallVal (m + 3) = 0 := rfl
    have h2 : fallVal (m + 3 + 1) = 0 := rfl
    rw [h1, h2]; unfold tickOpacity; norm_num

theorem riseIter (n : Nat) : tickOpacity^[n] ⟨true, 0⟩ = ⟨true, riseVal n⟩ := by
  induction n with
  | zero => rfl
  | succ n ih => rw [Function.iterate_succ_apply', ih, tickOpacity_rise]

theorem fallIter (n : Nat) : tickOpacity^[n] ⟨false, 1/2⟩ = ⟨false, fallVal n⟩ := by
  induction n with
  | zero => rfl
  | succ n ih => rw [Function.iterate_succ_apply', ih, tickOpacity_fall]

theorem riseVal_mono (n : Nat) : riseVal n ≤ riseVal (n + 1) := by
  match n with
  | 0 => unfold riseVal; norm_num
  | 1 => unfold riseVal; norm_num
  | 2 => unfold riseVal; norm_num
  | m + 3 =>
    have h1 : riseVal (m + 3) = 1/2 := rfl
    have h2 : riseVal (m + 3 + 1) = 1/2 := rfl
    rw [h1, h2]

theorem riseVal_le_half (n : Nat) : riseVal n ≤ 1/2 := by
  match n with
  | 0 => unfold riseVal; norm_num
  | 1 => unfold riseVal; norm_num
  | 2 => unfold riseVal; norm_num
  | m + 3 => exact le_of_eq rfl

theorem fallVal_mono (n : Nat) : fallVal (n + 1) ≤ fallVal n := by
  match n with
  | 0 => unfold fallVal; norm_num
  | 1 => unfold fallVal; norm_num
  | 2 => unfold fallVal; norm_num
  | m + 3 =>
    have h1 : fallVal (m + 3) = 0 := rfl
    have h2 : fallVal (m + 3 + 1) = 0 := rfl
    rw [h1, h2]

theorem fallVal_nonneg (n : Nat) : 0 ≤ fallVal n := by
  match n with
  | 0 => unfold fallVal; norm_num
  | 1 => unfold fallVal; norm_num
  | 2 => unfold fallVal; norm_num
  | m + 3 => exact le_of_eq rfl.symm

/-- C5: a cell held alive starting from opacity `0` rises monotonically, never
exceeds `1/2`, and reaches exactly `1/2` at the third tick of the opacity
update with transition speed `0.2`; a cell held dead starting from `1/2` falls
monotonically, never goes below `0`, and reaches exactly `0` at the third tick. -/
theorem opacity_convergence :
    (∀ n, (tickOpacity^[n] ⟨true, 0⟩).opacity ≤ (tickOpacity^[n + 1] ⟨true, 0⟩).opacity) ∧
    (∀ n, (tickOpacity^[n] ⟨true, 0⟩).opacity ≤ 1/2) ∧
    (tickOpacity^[3] ⟨true, 0⟩).opacity = 1/2 ∧
    (∀ n, (tickOpacity^[n + 1] ⟨false, 1/2⟩).opacity ≤ (tickOpacity^[n] ⟨false, 1/2⟩).opacity) ∧
    (∀ n, 0 ≤ (tickOpacity^[n] ⟨false, 1/2⟩).opacity) ∧
    (tickOpacity^[3] ⟨false, 1/2⟩).opacity = 0 := by
  refine ⟨fun n => ?_, fun n => ?_, ?_, fun n => ?_, fun n => ?_, ?_⟩
  · rw [riseIter, riseIter]; exact riseVal_mono n
  · rw [riseIter]; exact riseVal_le_half n
  · rw [riseIter]; rfl
  · rw [fallIter, fallIter]; exact fallVal_mono n
  · rw [fallIter]; exact fallVal_nonneg n
  · rw [fallIter]; rfl

/-- Witness for C5 at tick 2 of the rise. -/
theorem opacity_convergence_witness :
    (tickOpacity^[2] ⟨true, 0⟩).opacity ≤ (tickOpacity^[3] ⟨true, 0⟩).opacity :=
  opacity_convergence.1 2

/-! ## C3: initial opacity versus initial alive flag -/

/-- C3 counterexample execution: the source draws `alive` and `opacity` from two
independent `Math.random()` calls (lines 659-660: `alive: Math.random() > 0.85`
then `opacity: Math.random() > 0.85 ? 0.5 : 0`), despite its own comment
"Set initial opacity to match alive state".  With first draw `0.9 > 0.85` and
second draw `0.5 ≤ 0.85` the freshly initialized cell is alive with opacity `0`
- opacity does not match the alive state. -/
theorem initGrid_opacity_mismatch :
    (cellAt (initGrid (fun _ _ => (9/10, 1/2)) 1 1) 0 0).alive = true ∧
    (cellAt (initGrid (fun _ _ => (9/10, 1/2)) 1 1) 0 0).opacity = 0 := by
  have hcell : cellAt (initGrid (fun _ _ => (9/10, 1/2)) 1 1) 0 0
      = initCell (9/10) (1/2) := by
    simp [initGrid, cellAt, List.range_succ]
  rw [hcell]
  unfold initCell
  norm_num

/-! ## C8: construction performs no validation -/

/-- C8 counterexample: with `rows = 0` (e.g. a zero-height canvas) the source
constructor silently returns the empty grid - a normal value, not a
configuration error; no fail-fast validation exists in the code (nor are
`aliveProbability` or the tick interval parameters at all: they are the
hardcoded constants `0.85` and `125`). -/
theorem initGrid_zero_rows :
    initGrid (fun _ _ => (0, 0)) 0 250 = [] := rfl

/-- C8 amended: construction never fails; for every random stream and every
`rows`, `cols` (including degenerate `0`) the initializer totally returns a
grid with exactly `rows` rows, each of length `cols`. -/
theorem initGrid_total (rand : Nat → Nat → ℚ × ℚ) (rows cols : Nat) :
    (initGrid rand rows cols).length = rows ∧
    ∀ row ∈ initGrid rand rows cols, row.length = cols := by
  constructor
  · simp [initGrid]
  · intro row hrow
    simp only [initGrid, List.mem_map] at hrow
    obtain ⟨i, _, rfl⟩ := hrow
    simp

/-- Witness for C8 (amended) at concrete sizes. -/
theorem initGrid_total_witness :
    (initGrid (fun _ _ => (0, 0)) 0 250).length = 0 ∧
    ∀ row ∈ initGrid (fun _ _ => (0, 0)) 0 250, row.length = 250 :=
  initGrid_total (fun _ _ => (0, 0)) 0 250

/-! ## C9: the render snapshot holds exactly the visible cells -/

theorem mem_ite_singleton {α : Type} {x a : α} {c : Prop} [Decidable c] :
    x ∈ (if c then [a] else []) ↔ c ∧ x = a := by
  by_cases h : c
  · simp [h]
  · simp [h]

/-- C9: a record `(i, j, op)` appears in the draw calls of a tick exactly when
the cell at `(i, j)` of the opacity-updated grid exists and has opacity `op`
with `op > 0`; in particular cells at opacity `0` never appear. -/
theorem drawCalls_mem (g : Grid) (i j : Nat) (op : ℚ) :
    ((i, j, op) ∈ drawCalls g ↔
      ∃ c, cellAt? (opacityPass g) i j = some c ∧ c.opacity = op ∧ 0 < op) := by
  unfold drawCalls cellAt?
  rw [List.mem_flatMap]
  constructor
  · rintro ⟨p, hp, hmem⟩
    rw [List.mem_flatMap] at hmem
    obtain ⟨q, hq, hif⟩ := hmem
    rw [mem_ite_singleton] at hif
    obtain ⟨hpos, heq⟩ := hif
    rw [Prod.ext_iff, Prod.ext_iff] at heq
    obtain ⟨hi', hj', hop⟩ := heq
    dsimp at hi' hj' hop
    subst hi'; subst hj'; subst hop
    refine ⟨q.2, ?_, rfl, hpos⟩
    rw [(List.mem_enum_iff_getElem?).mp hp]
    simpa using (List.mem_enum_iff_getElem?).mp hq
  · rintro ⟨c, hc, hop, hpos⟩
    cases hrow : (opacityPass g)[i]? with
    | none => rw [hrow] at hc; simp at hc
    | some row =>
      rw [hrow] at hc
      simp only [Option.some_bind] at hc
      refine ⟨(i, row), (List.mem_enum_iff_getElem?).mpr (by simpa using hrow), ?_⟩
      rw [List.mem_flatMap]
      refine ⟨(j, c), (List.mem_enum_iff_getElem?).mpr (by simpa using hc), ?_⟩
      rw [mem_ite_singleton]
      constructor
      · show 0 < c.opacity
        rw [hop]; exact hpos
      · rw [hop]

/-- Witness for C9: a cell with positive post-update opacity is in the snapshot. -/
theorem drawCalls_mem_witness :
    (0, 0, (1/2 : ℚ)) ∈ drawCalls [[⟨true, 1/2⟩]] := by
  refine (drawCalls_mem [[⟨true, 1/2⟩]] 0 0 (1/2)).mpr ⟨⟨true, 1/2⟩, ?_, rfl, by norm_num⟩
  show cellAt? (opacityPass [[⟨true, 1/2⟩]]) 0 0 = some ⟨true, 1/2⟩
  have h : tickOpacity ⟨true, 1/2⟩ = ⟨true, 1/2⟩ := by
    unfold tickOpacity; norm_num
  unfold cellAt? opacityPass
  simp only [List.map_cons, List.map_nil, h]
  rfl

/-! ## C10: the snapshot is emitted in deterministic row-major order -/

theorem le_fst_of_mem_enumFrom {l : List α} {n : Nat} {p : Nat × α}
    (h : p ∈ l.enumFrom n) : n ≤ p.1 := by
  induction l generalizing n with
  | nil => simp [List.enumFrom] at h
  | cons a l ih =>
    simp only [List.enumFrom, List.mem_cons] at h
    rcases h with h | h
    · simp [h]
    · exact Nat.le_of_succ_le (ih h)

theorem pairwise_fst_lt_enumFrom (l : List α) (n : Nat) :
    (l.enumFrom n).Pairwise fun a b => a.1 < b.1 := by
  induction l generalizing n with
  | nil => simp [List.enumFrom]
  | cons a l ih =>
    refine List.Pairwise.cons ?_ (ih (n + 1))
    intro q hq
    exact Nat.lt_of_lt_of_le (Nat.lt_succ_self n) (le_fst_of_mem_enumFrom hq)

/-- C10: the draw calls of a tick are strictly sorted in row-major order (row
index first, then column index); since `drawCalls` is a function of the grid,
two ticks over equal grid states emit the same visible cells in the same
order. -/
theorem drawCalls_sorted (g : Grid) :
    (drawCalls g).Pairwise fun a b => a.1 < b.1 ∨ (a.1 = b.1 ∧ a.2.1 < b.2.1) := by
  unfold drawCalls
  rw [List.flatMap_def, List.pairwise_flatten]
  constructor
  · intro m hm
    rw [List.mem_map] at hm
    obtain ⟨p, hp, rfl⟩ := hm
    rw [List.flatMap_def, List.pairwise_flatten]
    constructor
    · intro m' hm'
      rw [List.mem_map] at hm'
      obtain ⟨q, hq, rfl⟩ := hm'
      split
      · simp
      · simp
    · refine List.pairwise_map.mpr ((pairwise_fst_lt_enumFrom p.2 0).imp ?_)
      intro q q' hlt x hx y hy
      rw [mem_ite_singleton] at hx hy
      obtain ⟨_, rfl⟩ := hx
      obtain ⟨_, rfl⟩ := hy
      exact Or.inr ⟨rfl, hlt⟩
  · refine List.pairwise_map.mpr ((pairwise_fst_lt_enumFrom (opacityPass g) 0).imp ?_)
    intro p p' hlt x hx y hy
    have hx1 : x.1 = p.1 := by
      rw [List.mem_flatMap] at hx
      obtain ⟨q, _, hx⟩ := hx
      rw [mem_ite_singleton] at hx
      obtain ⟨_, rfl⟩ := hx
      rfl
    have hy1 : y.1 = p'.1 := by
      rw [List.mem_flatMap] at hy
      obtain ⟨q, _, hy⟩ := hy
      rw [mem_ite_singleton] at hy
      obtain ⟨_, rfl⟩ := hy
      rfl
    exact Or.inl (by rw [hx1, hy1]; exact hlt)

/-- Witness for C10 at a concrete grid. -/
theorem drawCalls_sorted_witness :
    (drawCalls blinkerV).Pairwise fun a b => a.1 < b.1 ∨ (a.1 = b.1 ∧ a.2.1 < b.2.1) :=
  drawCalls_sorted blinkerV

/-! ## C7: cancellation

The effect (lines 639-770) drives the animation through the browser event loop:
`draw()` runs once synchronously, and each `draw` queues
`setTimeout(() => { animationFrameId = requestAnimationFrame(draw) }, 125)`
(lines 758-760).  The cleanup (lines 767-769) only runs
`cancelAnimationFrame(animationFrameId)`; the queued timeout is never cleared.
The event loop is modelled by an explicit state plus the three events that can
fire: the timeout callback, the animation-frame callback, and the cleanup. -/

structure SchedState where
  /-- The mutable `grid` binding. -/
  grid : Grid
  /-- How many times `draw` has executed (each execution mutates opacities and
  the grid and issues render calls). -/
  draws : Nat
  /-- A `setTimeout` callback is queued (line 758). -/
  timeoutPending : Bool
  /-- A `requestAnimationFrame` callback is queued, with its id. -/
  framePending : Option Nat
  /-- The `animationFrameId` variable (line 646); `none` while still undefined. -/
  animationFrameId : Option Nat
  /-- Fresh id supply for `requestAnimationFrame`. -/
  nextFrameId : Nat
  /-- The cleanup has run (the host called stop). -/
  stopped : Bool

/-- One execution of the `draw` body (lines 700-761): update opacities, render,
replace the grid by the next generation, queue the `setTimeout`. -/
def runDraw (s : SchedState) : SchedState :=
  { s with grid := drawStep s.grid, draws := s.draws + 1, timeoutPending := true }

/-- Mounting the component (lines 639-764): state is fresh and `draw()` is
invoked once synchronously. -/
def initSched (g : Grid) : SchedState :=
  runDraw { grid := g, draws := 0, timeoutPending := false, framePending := none,
            animationFrameId := none, nextFrameId := 0, stopped := false }

inductive SchedEvent
  /-- The queued `setTimeout` callback runs:
  `animationFrameId = requestAnimationFrame(draw)` (line 759). -/
  | timeoutFires
  /-- The queued animation frame runs `draw`. -/
  | frameFires
  /-- The effect cleanup runs: `cancelAnimationFrame(animationFrameId)`
  (lines 767-769); it removes the queued frame whose id matches
  `animationFrameId`, if any, and nothing else. -/
  | cleanup

def schedStep (s : SchedState) : SchedEvent → SchedState
  | SchedEvent.timeoutFires =>
    if s.timeoutPending then
      { s with timeoutPending := false, framePending := some s.nextFrameId,
               animationFrameId := some s.nextFrameId, nextFrameId := s.nextFrameId + 1 }
    else s
  | SchedEvent.frameFires =>
    match s.framePending with
    | some _ => runDraw { s with framePending := none }
    | none => s
  | SchedEvent.cleanup =>
    { s with stopped := true,
             framePending := if s.framePending = s.animationFrameId then none
                             else s.framePending }

def schedRun (s : SchedState) (es : List SchedEvent) : SchedState :=
  es.foldl schedStep s

/-- C7 failing execution: after the initial `draw` (`draws = 1`) the host stops
the component during the 125 ms inter-tick delay.  The cleanup only cancels the
(non-existent) animation frame; the pending timeout still fires, schedules a
fresh animation frame - whose id `cancelAnimationFrame` never saw - and that
frame runs `draw` again: `draws` rises to 2 after `stopped = true`, i.e. a tick
scheduled before the stop fires after it, mutating grid and opacity state,
contrary to the claim. -/
theorem tick_fires_after_stop :
    (initSched [[deadCell]]).draws = 1 ∧
    (schedRun (initSched [[deadCell]]) [SchedEvent.cleanup]).stopped = true ∧
    (schedRun (initSched [[deadCell]]) [SchedEvent.cleanup]).draws = 1 ∧
    (schedRun (initSched [[deadCell]])
        [SchedEvent.cleanup, SchedEvent.timeoutFires, SchedEvent.frameFires]).stopped
      = true ∧
    (schedRun (initSched [[deadCell]])
        [SchedEvent.cleanup, SchedEvent.timeoutFires, SchedEvent.frameFires]).draws
      = 2 :=
  ⟨rfl, rfl, rfl, rfl, rfl⟩

end GameOfLife
